import Mathlib

/-!
Verification of the conversational RAG chain built by `RAGChainBuilder` in
`flipkart/rag_chain.py`.

The pipeline is a composition of orchestration-library combinators
(`ChatPromptTemplate`, `create_history_aware_retriever`, a runnable map,
`create_stuff_documents_chain`, `RunnableWithMessageHistory`).  The two
external collaborators, the hosted chat model (`ChatGroq`) and the vector
store retriever (`vector_store.as_retriever`), are opaque services: they are
modelled as oracle functions supplied as parameters, and each invocation
records a trace of the calls made to them.
-/

namespace Flipkart

/-- Chat roles: `system` for system instructions of a prompt, `user` for
`HumanMessage`, `assistant` for `AIMessage`. -/
inductive Role where
  | system
  | user
  | assistant
  deriving DecidableEq, Repr

/-- One chat message (a prompt message or a stored history turn). -/
structure Message where
  role : Role
  text : String
  deriving DecidableEq, Repr

/-- A retrieved document (`langchain` `Document`): text chunk plus metadata. -/
structure Doc where
  pageContent : String
  metadata : List (String × String)
  deriving DecidableEq, Repr

/-- The universe of runtime values flowing between the runnables: strings,
message lists, document lists and string-keyed dicts (Python dictionaries
preserve insertion order, so a dict is an association list). -/
inductive Value where
  | str (s : String)
  | msgs (ms : List Message)
  | docs (ds : List Doc)
  | dict (kvs : List (String × Value))

/-- Dictionary key access (`x["k"]` / `x.get("k")`); `none` on a non-dict or
a missing key. -/
def Value.getKey : Value → String → Option Value
  | .dict kvs, k => kvs.lookup k
  | _, _ => none

/-- Python truthiness of a value (empty string / list / dict are falsy). -/
def Value.falsy : Value → Bool
  | .str s => s == ""
  | .msgs ms => ms.isEmpty
  | .docs ds => ds.isEmpty
  | .dict kvs => kvs.isEmpty

/-- Rendering of a substituted value inside an f-string template slot.  In
every execution path of this chain only string values reach a text slot
(a non-string substitution would be cut off earlier by the prompt templates
missing-variable check), so the rendering of the other constructors never
matters; Python would call str() on them. -/
def Value.asText : Value → String
  | .str s => s
  | _ => ""

/-- Replace (or append) one key of an association list, keeping key order, as
`dict.__setitem__` does. -/
def setPairs : List (String × Value) → String → Value → List (String × Value)
  | [], k, v => [(k, v)]
  | (k0, v0) :: rest, k, v =>
    if k0 == k then (k0, v) :: rest else (k0, v0) :: setPairs rest k v

/-- `RunnablePassthrough.assign`-style update of one dict entry.  The inputs
of this chain are always dicts at the point of use; a non-dict is returned
unchanged (Python would raise there, but the path is unreachable). -/
def Value.setKey : Value → String → Value → Value
  | .dict kvs, k, v => .dict (setPairs kvs k v)
  | other, _, _ => other

/-- A piece of an f-string message template: literal text or a `{variable}`
slot. -/
inductive TmplPart where
  | lit (s : String)
  | var (name : String)

/-- One entry of a `ChatPromptTemplate.from_messages` list: a system
template, a `MessagesPlaceholder`, or a human template. -/
inductive MsgTemplate where
  | system (ps : List TmplPart)
  | placeholder (name : String)
  | human (ps : List TmplPart)

/-- Variables mentioned by a template part. -/
def partVars : TmplPart → List String
  | .lit _ => []
  | .var n => [n]

/-- Variables required by one message template. -/
def msgTemplateVars : MsgTemplate → List String
  | .system ps => (ps.map partVars).flatten
  | .placeholder n => [n]
  | .human ps => (ps.map partVars).flatten

/-- `prompt.input_variables`: every variable required by the template. -/
def inputVariables (tmpl : List MsgTemplate) : List String :=
  (tmpl.map msgTemplateVars).flatten

/-- Errors an invocation can surface: a prompt formatting error for missing
variables (raised by `ChatPromptTemplate`), a type error, or a failure of an
external collaborator (model or retriever), which propagates uncaught. -/
inductive Err where
  | missingVariables (vars : List String)
  | typeError (msg : String)
  | modelFailure (msg : String)
  | retrieverFailure (msg : String)
  deriving DecidableEq, Repr

/-- Render the parts of one f-string template against an input dict. -/
def formatParts (input : Value) (ps : List TmplPart) : String :=
  ps.foldl
    (fun acc p =>
      acc ++ match p with
        | .lit s => s
        | .var n => ((Value.getKey input n).getD (.str "")).asText)
    ""

/-- Format one message template against the input dict.  A
`MessagesPlaceholder` splices the message list bound to its variable. -/
def formatMsgTemplate (input : Value) : MsgTemplate → Except Err (List Message)
  | .system ps => .ok [⟨.system, formatParts input ps⟩]
  | .human ps => .ok [⟨.user, formatParts input ps⟩]
  | .placeholder n =>
    match Value.getKey input n with
    | some (.msgs ms) => .ok ms
    | _ => .error (.typeError "variable of a MessagesPlaceholder must be a list of messages")

/-- Format every message template in order. -/
def formatAll : List MsgTemplate → Value → Except Err (List Message)
  | [], _ => .ok []
  | m :: rest, input => do
    let ms ← formatMsgTemplate input m
    let tail ← formatAll rest input
    .ok (ms ++ tail)

/-- `ChatPromptTemplate.invoke`: raises when any input variable is missing
from the input dict (as `_validate_input` does), otherwise produces the
formatted message list. -/
def formatPrompt (tmpl : List MsgTemplate) (input : Value) : Except Err (List Message) :=
  let missing := (inputVariables tmpl).filter (fun v => (Value.getKey input v).isNone)
  if missing.isEmpty then formatAll tmpl input
  else .error (.missingVariables missing)

/-- Which sub-chain of the pipeline issued a model call: the query rewriter
of `create_history_aware_retriever`, the preference summarizer
(`memory_chain`), or the final answer generator (`combine_docs_chain`). -/
inductive Stage where
  | rewrite
  | summarize
  | generate
  deriving DecidableEq, Repr

/-- Observable events of one invocation: calls of the model, completion of
the standalone-query computation inside the history-aware retriever, calls
of the retriever (with its `k`), and appends to a session history. -/
inductive Event where
  | llmCall (stage : Stage) (prompt : List Message) (result : Except Err String)
  | queryComputed (query : String)
  | retrieverCall (query : String) (k : Nat) (result : Except Err (List Doc))
  | historyAppend (session_id : String) (msg : Message)

/-- The two external collaborators, as oracles: the chat model maps a
message list to a completion (or fails), the vector store maps a query and a
`k` to documents (or fails). -/
structure Oracles where
  llm : List Message → Except Err String
  search : String → Nat → Except Err (List Doc)

/-- System instruction of the rewrite prompt (source line 31). -/
def rewrite_system : String :=
  "Rewrite the latest user message as a standalone question using chat_history."

/-- `rewrite_prompt` (source lines 30 to 34). -/
def rewrite_prompt : List MsgTemplate :=
  [ .system [.lit rewrite_system],
    .placeholder "chat_history",
    .human [.var "input"] ]

/-- System instruction of the memory prompt, after `dedent` and `strip`
(source lines 39 to 44). -/
def memory_system : String :=
  "From chat_history and the latest user input, extract the user\x27s\npreferences/constraints as short bullets: budget, brands, features,\nuse-case, dislikes, previously chosen items.\nIf nothing explicit, return \"none\"."

/-- `memory_prompt` (source lines 38 to 47). -/
def memory_prompt : List MsgTemplate :=
  [ .system [.lit memory_system],
    .placeholder "chat_history",
    .human [.lit "New request: ", .var "input"] ]

/-- `qa_system` (source lines 51 to 69), after `dedent` and `strip`, as
template parts: the literal text with the two f-string slots. -/
def qa_system : List TmplPart :=
  [ .lit "You are a product recommender. Use THREE signals:\n\n1) **chat_history/memory**: tailor suggestions to the user\x27s stated prefs/constraints.\n2) **CONTEXT** (retrieved docs): the source of truth for product facts (names, specs, reviews).\n   If a fact isn\x27t in CONTEXT, don\x27t assert it as certain.\n3) **General knowledge**: give generic buying tips, but never contradict CONTEXT.\n\nIf the question is about the conversation itself (e.g., \"what did I ask first?\"),\nanswer from chat_history/memory.\n\nFormat answers in clean Markdown: brief TL;DR, short bullets, no rambling.\n\nMEMORY:\n",
    .var "memory",
    .lit "\n\nCONTEXT:\n",
    .var "context" ]

/-- `qa_prompt` (source lines 71 to 75). -/
def qa_prompt : List MsgTemplate :=
  [ .system qa_system,
    .placeholder "chat_history",
    .human [.lit "QUESTION: ", .var "input"] ]

/-- `k` of `self.vector_store.as_retriever(search_kwargs={"k": 3})`
(source line 27). -/
def search_k : Nat := 3

/-- The retriever object produced by `as_retriever`: a similarity search
over the vector store with `k = search_k`, recorded as a trace event. -/
def retrieve (o : Oracles) (q : String) : Except Err (List Doc) × List Event :=
  (o.search q search_k, [.retrieverCall q search_k (o.search q search_k)])

/-- The branch condition of `create_history_aware_retriever`:
`not x.get("chat_history", False)` — true when the key is absent or bound to
a falsy (empty) value. -/
def chatHistoryFalsy (input : Value) : Bool :=
  match Value.getKey input "chat_history" with
  | none => true
  | some v => v.falsy

/-- `history_aware_retriever = create_history_aware_retriever(model,
retriever, rewrite_prompt)` (source line 35).  Its `RunnableBranch` feeds the
raw input straight to the retriever when `chat_history` is absent or empty,
and otherwise pipes `rewrite_prompt | model | StrOutputParser | retriever`. -/
def history_aware_retriever (o : Oracles) (input : Value) :
    Except Err (List Doc) × List Event :=
  if chatHistoryFalsy input then
    match Value.getKey input "input" with
    | some (.str q) =>
      (o.search q search_k, [.queryComputed q, .retrieverCall q search_k (o.search q search_k)])
    | _ => (.error (.typeError "input of the retriever branch must be a string"), [])
  else
    match formatPrompt rewrite_prompt input with
    | .error e => (.error e, [])
    | .ok pmsgs =>
      match o.llm pmsgs with
      | .error e => (.error e, [.llmCall .rewrite pmsgs (.error e)])
      | .ok q =>
        (o.search q search_k,
          [.llmCall .rewrite pmsgs (.ok q), .queryComputed q,
           .retrieverCall q search_k (o.search q search_k)])

/-- `memory_chain = memory_prompt | model | StrOutputParser()` (source
line 48). -/
def memory_chain (o : Oracles) (input : Value) : Except Err String × List Event :=
  match formatPrompt memory_prompt input with
  | .error e => (.error e, [])
  | .ok pmsgs => (o.llm pmsgs, [.llmCall .summarize pmsgs (o.llm pmsgs)])

/-- `format_docs` inside `create_stuff_documents_chain`: joins the page
contents of `inputs["context"]` with the default separator. -/
def format_docs (input : Value) : Except Err String :=
  match Value.getKey input "context" with
  | some (.docs ds) => .ok (String.intercalate "\n\n" (ds.map Doc.pageContent))
  | some _ => .error (.typeError "context must be a list of documents")
  | none => .error (.typeError "KeyError: context")

/-- `combine_docs_chain = create_stuff_documents_chain(model, qa_prompt)`
(source line 77): `RunnablePassthrough.assign(context=format_docs) |
qa_prompt | model | StrOutputParser()`. -/
def combine_docs_chain (o : Oracles) (input : Value) : Except Err String × List Event :=
  match format_docs input with
  | .error e => (.error e, [])
  | .ok ctx =>
    match formatPrompt qa_prompt (input.setKey "context" (.str ctx)) with
    | .error e => (.error e, [])
    | .ok pmsgs => (o.llm pmsgs, [.llmCall .generate pmsgs (o.llm pmsgs)])

/-- The output of the runnable map of source lines 82 to 86: exactly the
keys `context` (the retrieved documents), `memory` (the summarizer output)
and `input` (the output of `RunnablePassthrough()`, which is the whole
input the map received, not a projection of it). -/
def generation_input (ds : List Doc) (mem : String) (inp : Value) : Value :=
  .dict [("context", .docs ds), ("memory", .str mem), ("input", inp)]

/-- The two branches of the runnable map (retrieval path and summarization
path) are independent; the library may run them in either order.  A schedule
fixes which branch trace comes first. -/
inductive Sched where
  | contextFirst
  | memoryFirst

/-- `rag_with_memory` (source lines 81 to 88): the runnable map feeding
`combine_docs_chain`.  Both map branches receive the same full input; the
map output is `generation_input`; an error in either branch aborts before
generation. -/
def rag_with_memory (o : Oracles) (sched : Sched) (input : Value) :
    Except Err String × List Event :=
  let ctx := history_aware_retriever o input
  let mem := memory_chain o input
  let parEv := match sched with
    | .contextFirst => ctx.2 ++ mem.2
    | .memoryFirst => mem.2 ++ ctx.2
  match ctx.1, mem.1 with
  | .ok ds, .ok m =>
    let gen := combine_docs_chain o (generation_input ds m input)
    (gen.1, parEv ++ gen.2)
  | .error e, _ => (.error e, parEv)
  | .ok _, .error e => (.error e, parEv)

/-- The per-builder session store `self.history_store`: a Python dict from
session id to its `ChatMessageHistory` (a message list), in insertion
order. -/
abbrev HistoryStore : Type := List (String × List Message)

/-- `RAGChainBuilder._get_history` (source lines 20 to 24): return the
registered history of the session id, first registering an empty one for an
unseen id.  Returns the store after the lookup together with the history
the caller gets. -/
def _get_history (store : HistoryStore) (session_id : String) :
    HistoryStore × List Message :=
  match List.lookup session_id store with
  | some h => (store, h)
  | none => (store ++ [(session_id, [])], [])

/-- Mutation of the registered history object of a session id (appends done
through the object returned by `_get_history`). -/
def storeUpdate : HistoryStore → String → List Message → HistoryStore
  | [], sid, h => [(sid, h)]
  | (k, v) :: rest, sid, h =>
    if k == sid then (k, h) :: rest else (k, v) :: storeUpdate rest sid h

/-- The input dict `RunnableWithMessageHistory` hands to the wrapped
runnable: the caller input plus the session history under
`history_messages_key = "chat_history"`. -/
def chain_input (input : String) (hist : List Message) : Value :=
  .dict [("input", .str input), ("chat_history", .msgs hist)]

/-- One invocation of the chain returned by `RAGChainBuilder.build_chain`
(source lines 94 to 100): `RunnableWithMessageHistory` fetches the session
history, runs `rag_with_memory` on the input extended with `chat_history`,
and only on success appends the user input message and the answer message to
the session history (its history listener runs on successful completion
only; an error propagates and skips it). -/
def build_chain_invoke (o : Oracles) (sched : Sched) (store : HistoryStore)
    (input session_id : String) :
    Except Err String × HistoryStore × List Event :=
  let store1 := (_get_history store session_id).1
  let hist := (_get_history store session_id).2
  let r := rag_with_memory o sched (chain_input input hist)
  match r.1 with
  | .error e => (.error e, store1, r.2)
  | .ok answer =>
    (.ok answer,
     storeUpdate store1 session_id
       (hist ++ [⟨Role.user, input⟩, ⟨Role.assistant, answer⟩]),
     r.2 ++ [.historyAppend session_id ⟨Role.user, input⟩,
             .historyAppend session_id ⟨Role.assistant, answer⟩])

/-- Is the event an append to a session history? -/
def Event.isHistoryAppend : Event → Bool
  | .historyAppend _ _ => true
  | _ => false

/-- Is the event a call of the rewriting model (the query rewriter)? -/
def Event.isRewriteModelCall : Event → Bool
  | .llmCall .rewrite _ _ => true
  | _ => false

/-- Is the event a retriever call? -/
def Event.isRetrieverCall : Event → Bool
  | .retrieverCall _ _ _ => true
  | _ => false

/-- No event of the trace appends to a session history. -/
def noAppend (tr : List Event) : Bool :=
  tr.all fun e => !e.isHistoryAppend

/-- No event of the trace consults the rewriting model. -/
def noRewriteModelCall (tr : List Event) : Bool :=
  tr.all fun e => !e.isRewriteModelCall

/-- Every retriever call of the trace asks for `k = 3` documents. -/
def allRetrievalsK3 (tr : List Event) : Bool :=
  tr.all fun e =>
    match e with
    | .retrieverCall _ k _ => k == 3
    | _ => true

/-- The queries of the retriever calls of a trace, in order. -/
def retrieverQueries (tr : List Event) : List String :=
  tr.filterMap fun e =>
    match e with
    | .retrieverCall q _ _ => some q
    | _ => none

/-- Left-to-right scan checking the stage discipline of a trace: a retriever
call may only use a query whose computation (the rewrite stage) already
completed, and a generation model call may only occur after a retriever call
and a summarizer call have both produced successful results.  `qs` collects
the completed standalone queries, `retrOk` and `summOk` record whether
retrieval and summarization have succeeded so far. -/
def stageDiscipline (qs : List String) (retrOk summOk : Bool) : List Event → Bool
  | [] => true
  | .queryComputed q :: rest => stageDiscipline (q :: qs) retrOk summOk rest
  | .retrieverCall q _ res :: rest =>
    qs.contains q && stageDiscipline qs (retrOk || res.isOk) summOk rest
  | .llmCall .summarize _ res :: rest =>
    stageDiscipline qs retrOk (summOk || res.isOk) rest
  | .llmCall .generate _ _ :: rest =>
    retrOk && summOk && stageDiscipline qs retrOk summOk rest
  | .llmCall .rewrite _ _ :: rest => stageDiscipline qs retrOk summOk rest
  | .historyAppend _ _ :: rest => stageDiscipline qs retrOk summOk rest

/-- The formatted rewrite prompt: system instruction, then the history, then
the raw input as the human message. -/
def rewrite_msgs (input : String) (hist : List Message) : List Message :=
  ⟨.system, rewrite_system⟩ :: (hist ++ [⟨.user, input⟩])

/-- The formatted memory prompt: system instruction, then the history, then
the prefixed human message. -/
def memory_msgs (input : String) (hist : List Message) : List Message :=
  ⟨.system, memory_system⟩ :: (hist ++ [⟨.user, "New request: " ++ input⟩])

/-- A concrete all-succeeding behavior of the external collaborators: the
model always completes with `"ok"`, the search always returns one document
echoing the query. -/
def okOracles : Oracles :=
  ⟨fun _ => .ok "ok", fun q _ => .ok [⟨q, []⟩]⟩

/-- A concrete collaborator behavior whose model answers every request with
a free-form sentence instead of the `"none"` sentinel. -/
def freeformOracles : Oracles :=
  ⟨fun _ => .ok "No explicit preferences were stated.", fun q _ => .ok [⟨q, []⟩]⟩

/-! ### Helper lemmas -/

lemma formatPrompt_rewrite_eq (input : String) (hist : List Message) :
    formatPrompt rewrite_prompt (chain_input input hist) = .ok (rewrite_msgs input hist) := rfl

lemma formatPrompt_memory_eq (input : String) (hist : List Message) :
    formatPrompt memory_prompt (chain_input input hist) = .ok (memory_msgs input hist) := rfl

lemma memory_chain_eq (o : Oracles) (input : String) (hist : List Message) :
    memory_chain o (chain_input input hist) =
      (o.llm (memory_msgs input hist),
       [.llmCall .summarize (memory_msgs input hist) (o.llm (memory_msgs input hist))]) := rfl

lemma har_nil_eq (o : Oracles) (input : String) :
    history_aware_retriever o (chain_input input []) =
      (o.search input 3,
       [.queryComputed input, .retrieverCall input 3 (o.search input 3)]) := rfl

lemma har_cons_eq (o : Oracles) (input : String) (m : Message) (t : List Message) :
    history_aware_retriever o (chain_input input (m :: t)) =
      (match o.llm (rewrite_msgs input (m :: t)) with
       | .error e => (.error e, [.llmCall .rewrite (rewrite_msgs input (m :: t)) (.error e)])
       | .ok q =>
         (o.search q 3,
          [.llmCall .rewrite (rewrite_msgs input (m :: t)) (.ok q), .queryComputed q,
           .retrieverCall q 3 (o.search q 3)])) := rfl

lemma combine_docs_chain_fails (o : Oracles) (ds : List Doc) (mem : String) (inp : Value) :
    combine_docs_chain o (generation_input ds mem inp) =
      (.error (.missingVariables ["chat_history"]), []) := rfl

/-- Every run of `rag_with_memory` on an input of the wrapper shape fails,
appends nothing, always asks the retriever for `k = 3`, and respects the
stage discipline of the trace. -/
lemma rag_trace (o : Oracles) (sched : Sched) (input : String) (hist : List Message) :
    ∃ e ev, rag_with_memory o sched (chain_input input hist) = (.error e, ev)
      ∧ noAppend ev = true ∧ allRetrievalsK3 ev = true
      ∧ stageDiscipline [] false false ev = true := by
  cases hist with
  | nil =>
    cases sched <;>
      rcases hs : o.search input 3 with e | ds
    case contextFirst.error =>
      simp only [rag_with_memory, har_nil_eq, memory_chain_eq, hs]
      exact ⟨_, _, rfl, by simp [noAppend, Event.isHistoryAppend],
        by simp [allRetrievalsK3],
        by simp [stageDiscipline, List.contains, List.elem, Except.isOk]⟩
    case contextFirst.ok =>
      rcases hm : o.llm (memory_msgs input []) with e2 | s <;>
        · simp only [rag_with_memory, har_nil_eq, memory_chain_eq, hs, hm,
            combine_docs_chain_fails]
          exact ⟨_, _, rfl, by simp [noAppend, Event.isHistoryAppend],
            by simp [allRetrievalsK3],
            by simp [stageDiscipline, List.contains, List.elem, Except.isOk]⟩
    case memoryFirst.error =>
      simp only [rag_with_memory, har_nil_eq, memory_chain_eq, hs]
      exact ⟨_, _, rfl, by simp [noAppend, Event.isHistoryAppend],
        by simp [allRetrievalsK3],
        by simp [stageDiscipline, List.contains, List.elem, Except.isOk]⟩
    case memoryFirst.ok =>
      rcases hm : o.llm (memory_msgs input []) with e2 | s <;>
        · simp only [rag_with_memory, har_nil_eq, memory_chain_eq, hs, hm,
            combine_docs_chain_fails]
          exact ⟨_, _, rfl, by simp [noAppend, Event.isHistoryAppend],
            by simp [allRetrievalsK3],
            by simp [stageDiscipline, List.contains, List.elem, Except.isOk]⟩
  | cons m t =>
    rcases hr : o.llm (rewrite_msgs input (m :: t)) with er | q
    · cases sched <;>
        · simp only [rag_with_memory, har_cons_eq, memory_chain_eq, hr]
          exact ⟨_, _, rfl, by simp [noAppend, Event.isHistoryAppend],
            by simp [allRetrievalsK3],
            by simp [stageDiscipline, List.contains, List.elem, Except.isOk]⟩
    · cases sched <;>
        rcases hs : o.search q 3 with e | ds
      case cons.ok.contextFirst.error =>
        simp only [rag_with_memory, har_cons_eq, memory_chain_eq, hr, hs]
        exact ⟨_, _, rfl, by simp [noAppend, Event.isHistoryAppend],
          by simp [allRetrievalsK3],
          by simp [stageDiscipline, List.contains, List.elem, Except.isOk]⟩
      case cons.ok.contextFirst.ok =>
        rcases hm : o.llm (memory_msgs input (m :: t)) with e2 | s <;>
          · simp only [rag_with_memory, har_cons_eq, memory_chain_eq, hr, hs, hm,
              combine_docs_chain_fails]
            exact ⟨_, _, rfl, by simp [noAppend, Event.isHistoryAppend],
              by simp [allRetrievalsK3],
              by simp [stageDiscipline, List.contains, List.elem, Except.isOk]⟩
      case cons.ok.memoryFirst.error =>
        simp only [rag_with_memory, har_cons_eq, memory_chain_eq, hr, hs]
        exact ⟨_, _, rfl, by simp [noAppend, Event.isHistoryAppend],
          by simp [allRetrievalsK3],
          by simp [stageDiscipline, List.contains, List.elem, Except.isOk]⟩
      case cons.ok.memoryFirst.ok =>
        rcases hm : o.llm (memory_msgs input (m :: t)) with e2 | s <;>
          · simp only [rag_with_memory, har_cons_eq, memory_chain_eq, hr, hs, hm,
              combine_docs_chain_fails]
            exact ⟨_, _, rfl, by simp [noAppend, Event.isHistoryAppend],
              by simp [allRetrievalsK3],
              by simp [stageDiscipline, List.contains, List.elem, Except.isOk]⟩

/-- On an empty session history the rewriting model is never consulted and
the retriever is called exactly once, with the raw input as the query. -/
lemma rag_trace_nil (o : Oracles) (sched : Sched) (input : String) :
    ∃ e ev, rag_with_memory o sched (chain_input input []) = (.error e, ev)
      ∧ noRewriteModelCall ev = true ∧ retrieverQueries ev = [input] := by
  cases sched <;>
    rcases hs : o.search input 3 with e | ds
  case contextFirst.error =>
    simp only [rag_with_memory, har_nil_eq, memory_chain_eq, hs]
    exact ⟨_, _, rfl, by simp [noRewriteModelCall, Event.isRewriteModelCall],
      by simp [retrieverQueries]⟩
  case contextFirst.ok =>
    rcases hm : o.llm (memory_msgs input []) with e2 | s <;>
      · simp only [rag_with_memory, har_nil_eq, memory_chain_eq, hs, hm,
          combine_docs_chain_fails]
        exact ⟨_, _, rfl, by simp [noRewriteModelCall, Event.isRewriteModelCall],
          by simp [retrieverQueries]⟩
  case memoryFirst.error =>
    simp only [rag_with_memory, har_nil_eq, memory_chain_eq, hs]
    exact ⟨_, _, rfl, by simp [noRewriteModelCall, Event.isRewriteModelCall],
      by simp [retrieverQueries]⟩
  case memoryFirst.ok =>
    rcases hm : o.llm (memory_msgs input []) with e2 | s <;>
      · simp only [rag_with_memory, har_nil_eq, memory_chain_eq, hs, hm,
          combine_docs_chain_fails]
        exact ⟨_, _, rfl, by simp [noRewriteModelCall, Event.isRewriteModelCall],
          by simp [retrieverQueries]⟩

lemma lookup_append_ne {β : Type} (l : List (String × β)) (s t : String) (x : β)
    (h : (t == s) = false) : List.lookup t (l ++ [(s, x)]) = List.lookup t l := by
  induction l with
  | nil => simp [List.lookup, h]
  | cons hd tl ih =>
    obtain ⟨k, v⟩ := hd
    cases hk : t == k <;> simp [List.lookup, hk, ih]

lemma lookup_append_self {β : Type} (l : List (String × β)) (s : String) (x : β)
    (h : List.lookup s l = none) : List.lookup s (l ++ [(s, x)]) = some x := by
  induction l with
  | nil => simp [List.lookup]
  | cons hd tl ih =>
    obtain ⟨k, v⟩ := hd
    cases hk : s == k with
    | false =>
      simp only [List.cons_append, List.lookup, hk] at h ⊢
      exact ih h
    | true => simp [List.lookup, hk] at h

/-! ### Claims -/

set_option maxRecDepth 16000

/-- C1: the spec says a successful turn appends exactly the user input and
the answer to the session history, and a failed turn leaves history
unmodified.  The code cannot satisfy the success half: the runnable map
drops `chat_history` from the input of the generation step, so every
invocation fails at the QA prompt before the generating model is reached,
for every behavior of the external collaborators; the session store is left
exactly as `_get_history` left it (registration only) and no history append
occurs. -/
theorem C1_no_successful_turn_and_no_append :
    ∀ (o : Oracles) (sched : Sched) (store : HistoryStore) (input session_id : String),
      (build_chain_invoke o sched store input session_id).1.isOk = false
      ∧ (build_chain_invoke o sched store input session_id).2.1
          = (_get_history store session_id).1
      ∧ noAppend (build_chain_invoke o sched store input session_id).2.2 = true := by
  intro o sched store input sid
  obtain ⟨e, ev, heq, hA, _, _⟩ := rag_trace o sched input ((_get_history store sid).2)
  refine ⟨?_, ?_, ?_⟩ <;> simp [build_chain_invoke, heq, Except.isOk, Except.toBool, hA]

/-- C2: the rewriter and the summarizer do receive the identical
`chat_history` (the turns recorded before the current invocation), but the
third sub-step, the answer generator, receives an input with no
`chat_history` key at all, refuting the invariant that all three sub-steps
get the identical sequence. -/
theorem C2_substep_history_mismatch :
    ∀ (input : String) (hist : List Message) (ds : List Doc) (mem : String),
      formatPrompt rewrite_prompt (chain_input input hist) = .ok (rewrite_msgs input hist)
      ∧ formatPrompt memory_prompt (chain_input input hist) = .ok (memory_msgs input hist)
      ∧ Value.getKey (generation_input ds mem (chain_input input hist)) "chat_history"
          = none := by
  intro input hist ds mem
  exact ⟨rfl, rfl, rfl⟩

/-- C3: the final generation step does not receive the composite
{input, chat_history, context, memory}: its `input` key holds the whole
request dict (the output of `RunnablePassthrough()`), not the raw message
string, its input has no `chat_history` key, and formatting the QA prompt
therefore fails before any generation. -/
theorem C3_generation_step_never_gets_composite :
    ∀ (o : Oracles) (input : String) (hist : List Message) (ds : List Doc) (mem : String),
      Value.getKey (generation_input ds mem (chain_input input hist)) "input"
          = some (chain_input input hist)
      ∧ Value.getKey (generation_input ds mem (chain_input input hist)) "chat_history"
          = none
      ∧ combine_docs_chain o (generation_input ds mem (chain_input input hist))
          = (.error (.missingVariables ["chat_history"]), []) := by
  intro o input hist ds mem
  exact ⟨rfl, rfl, rfl⟩

/-- C4: `invoke` never returns an answer under any key: at the concrete
failing input (all-succeeding collaborators, fresh session, input
"Recommend a budget phone under $300"), the invocation raises the
missing-variable error of the QA prompt under both schedules of the two map
branches. -/
theorem C4_invoke_always_raises :
    (build_chain_invoke okOracles .contextFirst [] "Recommend a budget phone under $300"
        "s1").1 = .error (.missingVariables ["chat_history"])
    ∧ (build_chain_invoke okOracles .memoryFirst [] "Recommend a budget phone under $300"
        "s1").1 = .error (.missingVariables ["chat_history"]) :=
  ⟨rfl, rfl⟩

/-- C5: `_get_history` registers and returns the empty history on the first
call with an unseen session id, returns the registered history unchanged for
a known id, and a repeated call returns the same store and history again; it
is a total function, so it never fails. -/
theorem C5_get_history_contract :
    ∀ (store : HistoryStore) (session_id : String),
      (List.lookup session_id store = none →
        _get_history store session_id = (store ++ [(session_id, [])], [])
        ∧ List.lookup session_id (_get_history store session_id).1 = some [])
      ∧ (∀ h, List.lookup session_id store = some h →
          _get_history store session_id = (store, h))
      ∧ _get_history (_get_history store session_id).1 session_id
          = ((_get_history store session_id).1, (_get_history store session_id).2) := by
  intro store sid
  refine ⟨?_, ?_, ?_⟩
  · intro hnone
    refine ⟨by simp [_get_history, hnone], ?_⟩
    simp only [_get_history, hnone]
    exact lookup_append_self store sid [] hnone
  · intro h hsome
    simp [_get_history, hsome]
  · cases hl : List.lookup sid store with
    | some h => simp [_get_history, hl]
    | none => simp [_get_history, hl, lookup_append_self store sid [] hl]

/-- C5 witness: at a fresh store the unseen id "s1" registers and returns
the empty history; at a store owning "s1" the registered history comes back
with the store unchanged. -/
theorem C5_get_history_contract_witness :
    (List.lookup "s1" ([] : HistoryStore) = none
      ∧ _get_history ([] : HistoryStore) "s1" = ([("s1", [])], []))
    ∧ (List.lookup "s1" [("s1", [(⟨Role.user, "hi"⟩ : Message)])]
          = some [(⟨Role.user, "hi"⟩ : Message)]
      ∧ _get_history [("s1", [(⟨Role.user, "hi"⟩ : Message)])] "s1"
          = ([("s1", [(⟨Role.user, "hi"⟩ : Message)])], [(⟨Role.user, "hi"⟩ : Message)])) :=
  ⟨⟨rfl, ((C5_get_history_contract [] "s1").1 rfl).1⟩,
   ⟨rfl, (C5_get_history_contract [("s1", [(⟨Role.user, "hi"⟩ : Message)])] "s1").2.1
      _ rfl⟩⟩

/-- C6: for every collaborator behavior and both schedules of the two
independent map branches, the trace of an invocation respects the stage
discipline: a retriever call only uses a query whose computation (the
rewrite stage of the history-aware retriever) has already completed, and a
generation model call can only occur after a successful retrieval and a
successful summarization. -/
theorem C6_stage_discipline :
    ∀ (o : Oracles) (sched : Sched) (store : HistoryStore) (input session_id : String),
      stageDiscipline [] false false
        (build_chain_invoke o sched store input session_id).2.2 = true := by
  intro o sched store input sid
  obtain ⟨e, ev, heq, _, _, hS⟩ := rag_trace o sched input ((_get_history store sid).2)
  simp [build_chain_invoke, heq, hS]

/-- C7 counterexample: the claim that the summarizer output equals the
literal "none" on a preference-free conversation fails: with an empty
history and the input "hi" (no preference information anywhere), a
collaborator model may answer with a free-form sentence, and the chain
returns it unchanged. -/
theorem C7_sentinel_counterexample :
    (memory_chain freeformOracles (chain_input "hi" [])).1
        = .ok "No explicit preferences were stated."
    ∧ "No explicit preferences were stated." ≠ "none" :=
  ⟨rfl, by decide⟩

/-- C7 amended: the summarizer is a pure passthrough of the external model
completion (`StrOutputParser`), and the "none" sentinel lives only in the
system instruction of the memory prompt; the code does not enforce it. -/
theorem C7_summarizer_is_model_passthrough :
    ∀ (o : Oracles) (input : String) (hist : List Message),
      (memory_chain o (chain_input input hist)).1 = o.llm (memory_msgs input hist)
      ∧ List.isSuffixOf ("If nothing explicit, return \"none\".".data)
          (memory_system.data) = true := by
  intro o input hist
  exact ⟨rfl, by decide⟩

/-- C8: every retriever call of every invocation trace asks for exactly
`k = 3` documents, and the retriever is genuinely consulted: on a concrete
run it is called exactly once, with the (raw, because the history is empty)
query. -/
theorem C8_retriever_always_k3 :
    (∀ (o : Oracles) (sched : Sched) (store : HistoryStore) (input session_id : String),
      allRetrievalsK3 (build_chain_invoke o sched store input session_id).2.2 = true)
    ∧ retrieverQueries
        (build_chain_invoke okOracles .contextFirst [] "budget phone" "s1").2.2
        = ["budget phone"] := by
  refine ⟨?_, rfl⟩
  intro o sched store input sid
  obtain ⟨e, ev, heq, _, hK, _⟩ := rag_trace o sched input ((_get_history store sid).2)
  simp [build_chain_invoke, heq, hK]

/-- C9: when the session history is empty at invocation time, the rewriting
model is never consulted and the single retriever call uses the raw user
input, byte-identical, as its query. -/
theorem C9_empty_history_raw_query :
    ∀ (o : Oracles) (sched : Sched) (store : HistoryStore) (input session_id : String),
      (_get_history store session_id).2 = [] →
      noRewriteModelCall (build_chain_invoke o sched store input session_id).2.2 = true
      ∧ retrieverQueries (build_chain_invoke o sched store input session_id).2.2
          = [input] := by
  intro o sched store input sid hnil
  obtain ⟨e, ev, heq, h1, h2⟩ := rag_trace_nil o sched input
  refine ⟨?_, ?_⟩ <;> simp [build_chain_invoke, hnil, heq, h1, h2]

/-- C9 witness: a fresh store gives the session "s1" an empty history, and
the concrete invocation with input "hi" consults no rewriting model and
queries the retriever with exactly "hi". -/
theorem C9_empty_history_raw_query_witness :
    (_get_history ([] : HistoryStore) "s1").2 = []
    ∧ (noRewriteModelCall
        (build_chain_invoke okOracles .contextFirst [] "hi" "s1").2.2 = true
      ∧ retrieverQueries
          (build_chain_invoke okOracles .contextFirst [] "hi" "s1").2.2 = ["hi"]) :=
  ⟨rfl, C9_empty_history_raw_query okOracles .contextFirst [] "hi" "s1" rfl⟩

/-- C10: `_get_history` on a session id never touches the entry of any other
id, and on an already-registered id it leaves the whole store unchanged
(pure read). -/
theorem C10_get_history_frame :
    ∀ (store : HistoryStore) (s t : String),
      (s ≠ t → List.lookup t (_get_history store s).1 = List.lookup t store)
      ∧ (∀ h, List.lookup s store = some h → (_get_history store s).1 = store) := by
  intro store s t
  constructor
  · intro hne
    cases hl : List.lookup s store with
    | some h => simp [_get_history, hl]
    | none =>
      have hf : (t == s) = false := by
        cases hc : t == s with
        | false => rfl
        | true => exact absurd (eq_of_beq hc) (Ne.symm hne)
      simp [_get_history, hl, lookup_append_ne store s t [] hf]
  · intro h hsome
    simp [_get_history, hsome]

/-- C10 witness: reading the unseen id "a" leaves the entry of "b" intact,
and reading the registered id "a" leaves the whole store unchanged. -/
theorem C10_get_history_frame_witness :
    ("a" : String) ≠ "b"
    ∧ List.lookup "b" (_get_history [("b", [(⟨Role.user, "x"⟩ : Message)])] "a").1
        = List.lookup "b" [("b", [(⟨Role.user, "x"⟩ : Message)])]
    ∧ (List.lookup "a" [(("a" : String), ([] : List Message))] = some []
      ∧ (_get_history [(("a" : String), ([] : List Message))] "a").1
          = [(("a" : String), ([] : List Message))]) :=
  ⟨by decide,
   (C10_get_history_frame [("b", [(⟨Role.user, "x"⟩ : Message)])] "a" "b").1 (by decide),
   ⟨rfl, (C10_get_history_frame [(("a" : String), ([] : List Message))] "a" "b").2
      _ rfl⟩⟩

end Flipkart
